import Mathlib

/-!
Verification of the keyword-scoring core of the `aiment` repository
(`src/aiment/tools/custom_tool.py`) and of the bounded async wait in
`src/aiment/app.py`.

Python floats are modelled as rationals (ℚ): the scorer only ever adds the
literal increments 0.2 / 0.3, clamps with `min(·, 1.0)` and rounds to two
decimal places, so every reachable value is an exact two-decimal rational on
which float and rational arithmetic agree.
-/

set_option maxRecDepth 100000

-- Batteries marks these rational operations `[irreducible]`, which blocks
-- `decide`-style evaluation of concrete scores; their definitions are the
-- logical model, so restoring default reducibility is sound.
attribute [local semireducible] Rat.add Rat.mul Rat.inv Rat.sub

namespace Aiment

/-- `text.lower()` of `EmotionAnalysisTool._run` / `SafetyAssessmentTool._execute`,
on the character list of the string.  `Char.toLower` matches Python `str.lower`
on ASCII, which is all the keyword tables use. -/
def lowerStr (s : String) : List Char :=
  s.data.map Char.toLower

/-- Python substring containment `needle in hay` on character lists. -/
def containsSub (needle : List Char) (hay : List Char) : Bool :=
  match hay with
  | [] => needle.isEmpty
  | c :: t => needle.isPrefixOf (c :: t) || containsSub needle t

/-- `keyword in input_text.lower()`: the per-keyword presence test of both
keyword scorers (the keyword literals in the source are already lowercase). -/
def present (kw : String) (text : String) : Bool :=
  containsSub kw.data (lowerStr text)

/-- Number of starting positions at which `needle` occurs in `hay`
(used only to state that a phrase occurs twice in a text). -/
def countOcc (needle : List Char) : List Char → Nat
  | [] => 0
  | c :: t => (if needle.isPrefixOf (c :: t) then 1 else 0) + countOcc needle t

/-- Kernel-computable floor of a rational (shown equal to `⌊q⌋` below). -/
def floorQ (q : ℚ) : ℤ :=
  q.num / (q.den : ℤ)

/-- `round(x, 2)` of the scorers.  Python rounds half to even, but the scorers
only feed `round` exact multiples of 1/10 (sums of 0.2 or 0.3 clamped at 1.0),
where every rounding mode agrees, so floor-based half-up rounding is an
equivalent model on all reachable inputs. -/
def round2 (q : ℚ) : ℚ :=
  ((floorQ (100 * q + 1 / 2) : ℤ) : ℚ) / 100

/-- The accumulation loop `for keyword in keywords: if keyword in input_lower:
score += increment` of both scorers, for one category. -/
def rawScore (text : String) (kws : List String) (inc : ℚ) : ℚ :=
  match kws with
  | [] => 0
  | kw :: rest => (if present kw text then inc else 0) + rawScore text rest inc

/-- Post-loop normalisation of one category's score:
`score = min(score, 1.0); score = round(score, 2)`. -/
def catScore (text : String) (kws : List String) (inc : ℚ) : ℚ :=
  round2 (min (rawScore text kws inc) 1)

/-- The whole scorer: the zero-initialised score dict keyed like the keyword
table, after the accumulation loop and normalisation.  Both score dicts in the
source list their keys in exactly the order of the keyword table. -/
def scoreTable (table : List (String × List String)) (inc : ℚ) (text : String) :
    List (String × ℚ) :=
  table.map fun p => (p.1, catScore text p.2 inc)

/-- `emotion_keywords` of `EmotionAnalysisTool._run`. -/
def emotionKeywords : List (String × List String) :=
  [("joy", ["happy", "excited", "thrilled", "pleased", "delighted", "enjoy", "fun", "great"]),
   ("sadness", ["sad", "down", "depressed", "unhappy", "miserable", "heartbroken", "upset", "disappointed"]),
   ("anxiety", ["anxious", "worried", "nervous", "stress", "panic", "overwhelm", "fear", "dread", "concern"]),
   ("frustration", ["frustrat", "annoyed", "irritated", "angry", "upset", "difficult", "hard", "struggle"]),
   ("motivation", ["motivated", "inspired", "determined", "driven", "eager", "committed", "enthusiastic"]),
   ("exhaustion", ["tired", "exhausted", "fatigue", "drain", "burnout", "sleep", "rest", "overworked"]),
   ("confidence", ["confident", "sure", "certain", "capable", "able", "competent", "mastery"]),
   ("confusion", ["confused", "unclear", "lost", "uncertain", "puzzled", "don\x27t understand", "complex"]),
   ("hope", ["hope", "optimistic", "anticipate", "look forward", "better", "improve", "progress"])]

/-- `concern_keywords["self_harm"]` of `SafetyAssessmentTool._execute`. -/
def selfHarmKeywords : List String :=
  ["hurt myself", "harm myself", "end my life", "suicide", "kill myself",
   "don\x27t want to live", "no point in living", "better off dead"]

/-- `concern_keywords["harm_to_others"]`. -/
def harmToOthersKeywords : List String :=
  ["hurt someone", "harm others", "violent thoughts", "revenge",
   "make them pay", "they deserve to suffer", "bring weapon"]

/-- `concern_keywords["substance_abuse"]`. -/
def substanceAbuseKeywords : List String :=
  ["drunk", "wasted", "high", "using drugs", "addicted",
   "can\x27t stop drinking", "overdose", "blackout"]

/-- `concern_keywords["severe_distress"]`. -/
def severeDistressKeywords : List String :=
  ["can\x27t handle", "breaking down", "falling apart", "crisis",
   "desperate", "hopeless", "unbearable", "trauma"]

/-- `concern_keywords["basic_needs"]`. -/
def basicNeedsKeywords : List String :=
  ["homeless", "nowhere to sleep", "can\x27t afford food", "haven\x27t eaten",
   "unsafe housing", "abusive", "kicked out", "no money for"]

/-- `concern_keywords` of `SafetyAssessmentTool._execute`, in source order. -/
def concernKeywords : List (String × List String) :=
  [("self_harm", selfHarmKeywords),
   ("harm_to_others", harmToOthersKeywords),
   ("substance_abuse", substanceAbuseKeywords),
   ("severe_distress", severeDistressKeywords),
   ("basic_needs", basicNeedsKeywords)]

/-- The `emotions` score dict of `EmotionAnalysisTool._run` after scoring and
normalisation; increment 0.2 per keyword found. -/
def emotionScores (text : String) : List (String × ℚ) :=
  scoreTable emotionKeywords (2 / 10) text

/-- The `concerns` score dict of `SafetyAssessmentTool._execute` after scoring
and normalisation; increment 0.3 per keyword found. -/
def concernScores (text : String) : List (String × ℚ) :=
  scoreTable concernKeywords (3 / 10) text

/-- `max(emotions, key=emotions.get)` with its score: Python `max` keeps the
current best unless a later entry is strictly greater, so the first key
attaining the maximum wins.  The `[]` case is unreachable for the fixed
nine-entry emotion table. -/
def primaryOf (scores : List (String × ℚ)) : String × ℚ :=
  match scores with
  | [] => ("", 0)
  | p :: rest => rest.foldl (fun best q => if best.2 < q.2 then q else best) p

/-- The primary-emotion classification of `EmotionAnalysisTool._run`:
`if primary_score < 0.2: primary_emotion = "neutral"`. -/
def primaryEmotion (text : String) : String :=
  let p := primaryOf (emotionScores text)
  if p.2 < 2 / 10 then "neutral" else p.1

/-- `max(concerns.values())` of `SafetyAssessmentTool._execute`; `[]` is
unreachable for the fixed five-entry concern table. -/
def maxScore (scores : List (String × ℚ)) : ℚ :=
  match scores with
  | [] => 0
  | p :: rest => rest.foldl (fun m q => max m q.2) p.2

/-- The risk-tier rule of `SafetyAssessmentTool._execute`:
`if max_concern >= 0.6: "High" elif max_concern >= 0.3: "Medium" else: "Low"`. -/
def riskLevel (m : ℚ) : String :=
  if m ≥ 6 / 10 then "High"
  else if m ≥ 3 / 10 then "Medium"
  else "Low"

/-- `overall_risk_level` as computed by `SafetyAssessmentTool._execute`:
the tier of the maximum concern score. -/
def safetyRiskLevel (text : String) : String :=
  riskLevel (maxScore (concernScores text))

/-- Modelled from the spec: `select_label(scores, thresholds)` of §4.2 — walk
the cutoffs from highest to lowest, return the first label whose cutoff the
score meets or exceeds, and the default label when it is below every cutoff.
Stated only to be compared with the source-derived `riskLevel`. -/
def selectLabel (m : ℚ) : List (ℚ × String) → String → String
  | [], dflt => dflt
  | (c, lab) :: rest, dflt => if m ≥ c then lab else selectLabel m rest dflt

/-- Python `table.get(key, default)` on an association list: the keys of the
source dicts are unique, so hash lookup and first-match lookup agree. -/
def lookupD (table : List (String × List String)) (key : String)
    (dflt : List String) : List String :=
  match table with
  | [] => dflt
  | (k, v) :: rest => if key = k then v else lookupD rest key dflt

/-- The `recommendations` dict of `EmotionAnalysisTool._get_recommendations`,
in source order. -/
def recommendationTable : List (String × List String) :=
  [("joy",
    ["Encourage the student to mentor others who may be struggling",
     "Suggest more challenging projects to maintain engagement",
     "Discuss long-term goals to channel positive energy"]),
   ("sadness",
    ["Schedule a follow-up counseling session",
     "Provide resources for mental health support",
     "Consider workload adjustments if academic pressure is contributing"]),
   ("anxiety",
    ["Teach stress management techniques",
     "Review time management strategies",
     "Consider exam or assignment accommodations if needed"]),
   ("frustration",
    ["Identify specific sources of frustration",
     "Connect with tutoring for challenging subjects",
     "Break down complex tasks into manageable steps"]),
   ("motivation",
    ["Channel motivation into specific goal-setting",
     "Connect with student leadership opportunities",
     "Suggest research or advanced project opportunities"]),
   ("exhaustion",
    ["Discuss work-life balance strategies",
     "Review sleep habits and self-care",
     "Consider temporary workload adjustments"]),
   ("confidence",
    ["Encourage peer tutoring or mentoring roles",
     "Suggest participation in academic competitions",
     "Discuss advanced courses or accelerated options"]),
   ("confusion",
    ["Schedule additional office hours with instructors",
     "Connect with study groups or tutoring",
     "Provide clarification resources and examples"]),
   ("hope",
    ["Help develop concrete steps toward goals",
     "Connect with mentors in areas of interest",
     "Provide opportunities to build on positive outlook"]),
   ("neutral",
    ["Continue regular check-ins",
     "Explore interests and motivations more deeply",
     "Monitor for changes in emotional state"])]

/-- The fallback list of `EmotionAnalysisTool._get_recommendations`. -/
def defaultRecommendations : List String :=
  ["Schedule a follow-up assessment", "Maintain regular check-ins"]

/-- `EmotionAnalysisTool._get_recommendations`:
`recommendations.get(emotion, [...default...])`.  A total function — the
Python body performs no operation that can raise. -/
def getRecommendations (emotion : String) : List String :=
  lookupD recommendationTable emotion defaultRecommendations

/-! ## Bounded async wait (`src/aiment/app.py`, `run_aiment_with_ui`)

The shared dict `result = {"response": None, "error": None, "completed":
False}` is the AsyncTask record.  Exactly one background thread (`run_task`)
writes it once; the foreground loop polls it once per second.  Thread timing
is modelled by a single parameter: the poll tick from which the worker's
write-once update is visible to the waiter (`none` if the worker has not
finished inside the modelled horizon). -/

/-- The shared `result` dict of `run_aiment_with_ui`. -/
structure AsyncTask where
  response : Option String
  error : Option String
  completed : Bool
deriving DecidableEq

/-- `result = {"response": None, "error": None, "completed": False}`. -/
def initialTask : AsyncTask :=
  { response := none, error := none, completed := false }

/-- The state `run_task` leaves behind: on success it stores the result and
sets the completion flag; on an exception it stores only `str(e)` — the
`completed` flag is NOT set in the `except` branch of the source. -/
def taskAfter : Except String String → AsyncTask
  | .ok r => { response := some r, error := none, completed := true }
  | .error m => { response := none, error := some m, completed := false }

/-- Task state visible at poll tick `t`, given that the worker's final write
becomes visible at tick `fin.1` with outcome `fin.2` (or never, for `none`). -/
def stateAt (fin : Option (Nat × Except String String)) (t : Nat) : AsyncTask :=
  match fin with
  | none => initialTask
  | some (k, out) => if k ≤ t then taskAfter out else initialTask

/-- The polling loop
`while not result["completed"] and result["error"] is None and wait_time <
max_wait: sleep(1); wait_time += 1`, returning the final `wait_time`. -/
def waitLoop (st : Nat → AsyncTask) (maxWait : Nat) (t : Nat) : Nat :=
  if h : (st t).completed = false ∧ (st t).error = none ∧ t < maxWait then
    waitLoop st maxWait (t + 1)
  else
    t
termination_by maxWait - t
decreasing_by
  have := h.2.2
  omega

/-- The three caller-visible outcomes of the bounded wait. -/
inductive WaitStatus where
  | stillRunning
  | failed (msg : String)
  | finished (response : String)
deriving DecidableEq

/-- Python truthiness of `result["error"]`: `None` and `""` are falsy. -/
def truthy : Option String → Bool
  | none => false
  | some m => !(m == "")

/-- `result["response"] or "Processing complete. ..."`:
Python `or` replaces a falsy (`None` or empty) response by the default. -/
def responseOr (r : Option String) : String :=
  match r with
  | none => "Processing complete. The AI system has analyzed your input."
  | some m =>
      if m == "" then "Processing complete. The AI system has analyzed your input." else m

/-- The post-loop dispatch of `run_aiment_with_ui` on the final `wait_time`
`t` and the task state `s` read after the loop: timeout check first
(`wait_time >= max_wait and not result["completed"]`), then the truthiness
check on `result["error"]`, then the response.  The branch that reads a
report file from disk is external file I/O and is modelled as the file being
absent, falling through to the in-memory response. -/
def afterWait (maxWait t : Nat) (s : AsyncTask) : WaitStatus :=
  if maxWait ≤ t ∧ s.completed = false then .stillRunning
  else if truthy s.error then .failed (s.error.getD "")
  else .finished (responseOr s.response)

/-- The whole bounded wait of `run_aiment_with_ui`: run the polling loop,
then dispatch on the state the waiter reads after it. -/
def waitOutcome (maxWait : Nat) (st : Nat → AsyncTask) : WaitStatus :=
  afterWait maxWait (waitLoop st maxWait 0) (st (waitLoop st maxWait 0))

/-! ## JSON-parse fallback of the data-consuming tools

`json.loads` is an external library call; a parse attempt is modelled by its
outcome only: either a parsed value (abstracted to the string-valued fields
the tools read) or the `json.JSONDecodeError` branch. -/

/-- Outcome of the `json.loads` attempt on the tool's string argument. -/
inductive ParseOutcome where
  | ok (fields : List (String × String))
  | failed
deriving DecidableEq

/-- The parse step of `StudyPatternAnalysisTool._execute`: on
`JSONDecodeError`, `data = {"input": input_data}`. -/
def studyPatternParse (p : ParseOutcome) (raw : String) : List (String × String) :=
  match p with
  | .ok fields => fields
  | .failed => [("input", raw)]

/-- The parse step of `ResourceRecommendationTool._execute`: on
`JSONDecodeError`, `data = {"input": student_needs}`. -/
def resourceParse (p : ParseOutcome) (raw : String) : List (String × String) :=
  match p with
  | .ok fields => fields
  | .failed => [("input", raw)]

/-- The parse step of `AcademicProgressTool._execute`: on `JSONDecodeError`
the tool returns a JSON error payload at once instead of falling back to the
raw text (`Except.error` models that early return). -/
def academicParse (p : ParseOutcome) :
    Except (String × String) (List (String × String)) :=
  match p with
  | .ok fields => .ok fields
  | .failed =>
      .error ("Invalid student data format",
              "The provided data could not be parsed as JSON")

/-- The parse step of `CareerGuidanceTool._execute`: identical early-return
error payload as `AcademicProgressTool._execute`. -/
def careerParse (p : ParseOutcome) :
    Except (String × String) (List (String × String)) :=
  match p with
  | .ok fields => .ok fields
  | .failed =>
      .error ("Invalid student data format",
              "The provided data could not be parsed as JSON")

/-- A concrete input for the "hurt myself twice" scenario: the phrase occurs
twice and no other phrase of the safety table occurs. -/
def cText : String :=
  "i hurt myself before and i may hurt myself again"

/-! ## Helper lemmas -/

theorem floorQ_eq (q : ℚ) : floorQ q = ⌊q⌋ :=
  Rat.floor_def.symm

theorem round2_nonneg {q : ℚ} (h0 : 0 ≤ q) : 0 ≤ round2 q := by
  simp only [round2, floorQ_eq]
  apply div_nonneg _ (by norm_num)
  have hz : (0 : ℤ) ≤ ⌊100 * q + 1 / 2⌋ := Int.le_floor.mpr (by push_cast; linarith)
  exact_mod_cast hz

theorem round2_le_one {q : ℚ} (h1 : q ≤ 1) : round2 q ≤ 1 := by
  simp only [round2, floorQ_eq]
  rw [div_le_one (by norm_num)]
  have hb : ⌊100 * q + 1 / 2⌋ ≤ ⌊(201 : ℚ) / 2⌋ := Int.floor_mono (by linarith)
  have he : ⌊(201 : ℚ) / 2⌋ = 100 := by norm_num
  exact_mod_cast he ▸ hb

theorem round2_den (q : ℚ) : (100 * round2 q).den = 1 := by
  simp only [round2]
  rw [mul_comm, div_mul_cancel₀ _ (by norm_num : (100 : ℚ) ≠ 0)]
  exact Rat.den_intCast _

theorem rawScore_eq_filter (text : String) (kws : List String) (inc : ℚ) :
    rawScore text kws inc =
      inc * ((kws.filter fun kw => present kw text).length : ℚ) := by
  induction kws with
  | nil => simp [rawScore]
  | cons kw rest ih =>
      by_cases h : present kw text = true
      · simp [rawScore, List.filter, h, ih]
        ring
      · simp only [Bool.not_eq_true] at h
        simp [rawScore, List.filter, h, ih]

theorem rawScore_nonneg {inc : ℚ} (text : String) (kws : List String)
    (h : 0 ≤ inc) : 0 ≤ rawScore text kws inc := by
  rw [rawScore_eq_filter]
  exact mul_nonneg h (Nat.cast_nonneg _)

theorem catScore_props {inc : ℚ} (text : String) (kws : List String)
    (h : 0 ≤ inc) :
    0 ≤ catScore text kws inc ∧ catScore text kws inc ≤ 1 ∧
      (100 * catScore text kws inc).den = 1 := by
  have h0 : 0 ≤ min (rawScore text kws inc) 1 :=
    le_min (rawScore_nonneg text kws h) zero_le_one
  have h1 : min (rawScore text kws inc) 1 ≤ 1 := min_le_right _ _
  exact ⟨round2_nonneg h0, round2_le_one h1, round2_den _⟩

theorem catScore_of_filter {text : String} {kws : List String} {l : List String}
    (inc : ℚ) (hf : (kws.filter fun kw => present kw text) = l) :
    catScore text kws inc = round2 (min (inc * (l.length : ℚ)) 1) := by
  rw [catScore, rawScore_eq_filter, hf]

theorem lookupD_ne_nil {table : List (String × List String)} {key : String}
    {dflt : List String} (ht : ∀ p ∈ table, p.2 ≠ []) (hd : dflt ≠ []) :
    lookupD table key dflt ≠ [] := by
  induction table with
  | nil => exact hd
  | cons p rest ih =>
      obtain ⟨k, v⟩ := p
      simp only [lookupD]
      by_cases h : key = k
      · simpa [h] using ht (k, v) (by simp)
      · simp only [h, if_false]
        exact ih fun q hq => ht q (List.mem_cons_of_mem _ hq)

theorem waitLoop_reaches (st : Nat → AsyncTask) (maxWait stop : Nat)
    (hstop : ¬((st stop).completed = false ∧ (st stop).error = none ∧
      stop < maxWait))
    (hrun : ∀ u, u < stop → (st u).completed = false ∧ (st u).error = none ∧
      u < maxWait) :
    ∀ d t, t + d = stop → waitLoop st maxWait t = stop := by
  intro d
  induction d with
  | zero =>
      intro t ht
      rw [Nat.add_zero] at ht
      subst ht
      rw [waitLoop, dif_neg hstop]
  | succ d ih =>
      intro t ht
      have hlt : t < stop := by omega
      rw [waitLoop, dif_pos (hrun t hlt)]
      exact ih (t + 1) (by omega)

/-! ## Claims -/

/-- C2: for every input text, every score produced by a keyword scorer
(emotion scores of `EmotionAnalysisTool._run`, concern scores of
`SafetyAssessmentTool._execute`) lies in the closed interval [0, 1] and is an
exact two-decimal value (100 times the score has denominator 1). -/
theorem scores_within_unit_and_two_decimals (text : String) (p : String × ℚ)
    (hp : p ∈ emotionScores text ∨ p ∈ concernScores text) :
    0 ≤ p.2 ∧ p.2 ≤ 1 ∧ (100 * p.2).den = 1 := by
  rcases hp with hp | hp
  · simp only [emotionScores, scoreTable] at hp
    obtain ⟨row, _, hrow⟩ := List.mem_map.mp hp
    have h2 : p.2 = catScore text row.2 (2 / 10) := by rw [← hrow]
    rw [h2]
    exact catScore_props text row.2 (by norm_num)
  · simp only [concernScores, scoreTable] at hp
    obtain ⟨row, _, hrow⟩ := List.mem_map.mp hp
    have h2 : p.2 = catScore text row.2 (3 / 10) := by rw [← hrow]
    rw [h2]
    exact catScore_props text row.2 (by norm_num)

/-- Witness for C2 at the empty text and the emotion category "joy". -/
theorem scores_within_unit_witness :
    0 ≤ (("joy", (0 : ℚ))).2 ∧ (("joy", (0 : ℚ))).2 ≤ 1 ∧
      (100 * (("joy", (0 : ℚ))).2).den = 1 :=
  scores_within_unit_and_two_decimals "" ("joy", 0) (Or.inl (by decide))

/-- C3: the risk-tier rule of `SafetyAssessmentTool._execute` coincides with
the spec's `select_label`: walk the cutoffs from highest (0.6, "High") to
lowest (0.3, "Medium"), return the first label whose cutoff the maximum
concern score meets or exceeds, and "Low" when it is below every cutoff. -/
theorem tier_selection_walks_cutoffs :
    (∀ m : ℚ, riskLevel m =
      selectLabel m [(6 / 10, "High"), (3 / 10, "Medium")] "Low") ∧
    (∀ text : String, safetyRiskLevel text =
      selectLabel (maxScore (concernScores text))
        [(6 / 10, "High"), (3 / 10, "Medium")] "Low") := by
  constructor
  · intro m
    simp [riskLevel, selectLabel]
  · intro text
    simp [safetyRiskLevel, riskLevel, selectLabel]

/-- C4: `EmotionAnalysisTool._get_recommendations` returns a non-empty list
for every key, including keys absent from the table (the designated default
list is returned, and the total Lean function models that no path raises). -/
theorem recommendations_never_empty (emotion : String) :
    getRecommendations emotion ≠ [] := by
  unfold getRecommendations
  exact lookupD_ne_nil (by decide) (by decide)

/-- C5: empty-string input yields the all-zero score vector, and the
classifier then labels the primary emotion "neutral". -/
theorem empty_text_all_zero_and_neutral :
    emotionScores "" =
      [("joy", 0), ("sadness", 0), ("anxiety", 0), ("frustration", 0),
       ("motivation", 0), ("exhaustion", 0), ("confidence", 0),
       ("confusion", 0), ("hope", 0)] ∧
    primaryEmotion "" = "neutral" := by
  constructor <;> decide

/-- C9: scoring is deterministic — two invocations of the scorers on
identical inputs produce identical score vectors (the embedded scorer is a
pure function of the text; the source loops consult no random source). -/
theorem scoring_deterministic (t₁ t₂ : String) (h : t₁ = t₂) :
    emotionScores t₁ = emotionScores t₂ ∧
    concernScores t₁ = concernScores t₂ := by
  subst h
  exact ⟨rfl, rfl⟩

/-- Witness for C9 at a concrete text. -/
theorem scoring_deterministic_witness :
    emotionScores "stress" = emotionScores "stress" ∧
    concernScores "stress" = concernScores "stress" :=
  scoring_deterministic "stress" "stress" rfl

/-- C10: each trigger phrase contributes its increment at most once per
invocation — the accumulated category score equals the increment times the
number of DISTINCT phrases present (a presence test, indifferent to how many
times a phrase occurs), hence is at most the increment times the number of
phrases in the category's list. -/
theorem phrase_counted_once (text : String) (kws : List String) (inc : ℚ)
    (h : 0 ≤ inc) :
    rawScore text kws inc =
      inc * ((kws.filter fun kw => present kw text).length : ℚ) ∧
    rawScore text kws inc ≤ inc * (kws.length : ℚ) := by
  refine ⟨rawScore_eq_filter text kws inc, ?_⟩
  rw [rawScore_eq_filter]
  have hle : ((kws.filter fun kw => present kw text).length : ℚ) ≤
      (kws.length : ℚ) := by
    exact_mod_cast List.length_filter_le _ _
  exact mul_le_mul_of_nonneg_left hle h

/-- Witness for C10 on the counterexample text and the single phrase
"hurt myself" with the safety increment. -/
theorem phrase_counted_once_witness :
    rawScore cText ["hurt myself"] (3 / 10) =
      (3 / 10) *
        (((["hurt myself"].filter fun kw => present kw cText)).length : ℚ) ∧
    rawScore cText ["hurt myself"] (3 / 10) ≤
      (3 / 10) * ((["hurt myself"] : List String).length : ℚ) :=
  phrase_counted_once cText ["hurt myself"] (3 / 10) (by decide)

/-- C1 counterexample: on `cText` the phrase "hurt myself" occurs twice and
no other phrase of the safety table occurs, yet the self-harm score is 0.3
(not 0.6: presence adds the increment once, however often the phrase occurs)
and the selected tier is "Medium", not "High". -/
theorem hurt_twice_counterexample :
    countOcc "hurt myself".data (lowerStr cText) = 2 ∧
    (selfHarmKeywords.filter fun kw => present kw cText) = ["hurt myself"] ∧
    (harmToOthersKeywords.filter fun kw => present kw cText) = [] ∧
    (substanceAbuseKeywords.filter fun kw => present kw cText) = [] ∧
    (severeDistressKeywords.filter fun kw => present kw cText) = [] ∧
    (basicNeedsKeywords.filter fun kw => present kw cText) = [] ∧
    concernScores cText =
      [("self_harm", 3 / 10), ("harm_to_others", 0), ("substance_abuse", 0),
       ("severe_distress", 0), ("basic_needs", 0)] ∧
    safetyRiskLevel cText = "Medium" ∧
    safetyRiskLevel cText ≠ "High" := by
  refine ⟨?_, ?_, ?_, ?_, ?_, ?_, ?_, ?_, ?_⟩ <;> decide

/-- C1 amended: an input text in which, of the whole safety table, exactly
the phrase "hurt myself" is present (no matter how many times it occurs)
scores min(1.0, 0.3) = 0.3 for self_harm, 0 for every other category, and
tier selection selects "Medium". -/
theorem hurt_myself_present_scores_medium (text : String)
    (hself : (selfHarmKeywords.filter fun kw => present kw text) =
      ["hurt myself"])
    (hharm : (harmToOthersKeywords.filter fun kw => present kw text) = [])
    (hsub : (substanceAbuseKeywords.filter fun kw => present kw text) = [])
    (hsev : (severeDistressKeywords.filter fun kw => present kw text) = [])
    (hbasic : (basicNeedsKeywords.filter fun kw => present kw text) = []) :
    concernScores text =
      [("self_harm", 3 / 10), ("harm_to_others", 0), ("substance_abuse", 0),
       ("severe_distress", 0), ("basic_needs", 0)] ∧
    safetyRiskLevel text = "Medium" := by
  have e1 : catScore text selfHarmKeywords (3 / 10) = 3 / 10 := by
    rw [catScore_of_filter _ hself]
    decide
  have e2 : catScore text harmToOthersKeywords (3 / 10) = 0 := by
    rw [catScore_of_filter _ hharm]
    decide
  have e3 : catScore text substanceAbuseKeywords (3 / 10) = 0 := by
    rw [catScore_of_filter _ hsub]
    decide
  have e4 : catScore text severeDistressKeywords (3 / 10) = 0 := by
    rw [catScore_of_filter _ hsev]
    decide
  have e5 : catScore text basicNeedsKeywords (3 / 10) = 0 := by
    rw [catScore_of_filter _ hbasic]
    decide
  have hs : concernScores text =
      [("self_harm", 3 / 10), ("harm_to_others", 0), ("substance_abuse", 0),
       ("severe_distress", 0), ("basic_needs", 0)] := by
    simp only [concernScores, scoreTable, concernKeywords, List.map_cons,
      List.map_nil]
    rw [e1, e2, e3, e4, e5]
  refine ⟨hs, ?_⟩
  simp only [safetyRiskLevel, hs]
  decide

/-- Witness for the amended C1 at the concrete text `cText`. -/
theorem hurt_myself_witness :
    concernScores cText =
      [("self_harm", 3 / 10), ("harm_to_others", 0), ("substance_abuse", 0),
       ("severe_distress", 0), ("basic_needs", 0)] ∧
    safetyRiskLevel cText = "Medium" :=
  hurt_myself_present_scores_medium cText (by decide) (by decide) (by decide)
    (by decide) (by decide)

/-- C6 counterexample: when the unit of work raises, the `except` branch of
`run_task` records the error message but does NOT set the completion flag —
the claim that the worker records "an error message and the completion flag"
fails on the completion flag. -/
theorem worker_error_flag_counterexample :
    (taskAfter (Except.error "boom")).error = some "boom" ∧
    ¬((taskAfter (Except.error "boom")).completed = true) := by
  decide

/-- C6 amended: when the dispatched unit of work raises with a non-empty
message, the worker records the message on the shared record (leaving the
completion flag false); the waiter's loop also exits when the error field is
set and surfaces the message as a failed-result status, with no error
re-raised (the dispatch is a total function into `WaitStatus`). -/
theorem worker_failure_surfaced (m : String) (k maxWait : Nat)
    (hm : m ≠ "") (hk : k < maxWait) :
    (taskAfter (Except.error m)).completed = false ∧
    (taskAfter (Except.error m)).error = some m ∧
    waitOutcome maxWait (stateAt (some (k, Except.error m))) =
      WaitStatus.failed m := by
  refine ⟨rfl, rfl, ?_⟩
  have hsk : stateAt (some (k, Except.error m)) k = taskAfter (Except.error m) := by
    simp [stateAt]
  have hstop : ¬((stateAt (some (k, Except.error m)) k).completed = false ∧
      (stateAt (some (k, Except.error m)) k).error = none ∧ k < maxWait) := by
    rw [hsk]
    simp [taskAfter]
  have hrun : ∀ u, u < k →
      (stateAt (some (k, Except.error m)) u).completed = false ∧
      (stateAt (some (k, Except.error m)) u).error = none ∧ u < maxWait := by
    intro u hu
    have hsu : stateAt (some (k, Except.error m)) u = initialTask := by
      simp only [stateAt]
      rw [if_neg (by omega)]
    rw [hsu]
    exact ⟨rfl, rfl, by omega⟩
  have hl : waitLoop (stateAt (some (k, Except.error m))) maxWait 0 = k :=
    waitLoop_reaches _ maxWait k hstop hrun k 0 (by omega)
  simp only [waitOutcome, hl, hsk]
  have ht : truthy (taskAfter (Except.error m)).error = true := by
    simp [taskAfter, truthy, hm]
  simp [afterWait, taskAfter, Nat.not_le.mpr hk, ht, truthy, hm]

/-- Witness for the amended C6 at a concrete message and timing. -/
theorem worker_failure_witness :
    (taskAfter (Except.error "boom")).completed = false ∧
    (taskAfter (Except.error "boom")).error = some "boom" ∧
    waitOutcome 120 (stateAt (some (2, Except.error "boom"))) =
      WaitStatus.failed "boom" :=
  worker_failure_surfaced "boom" 2 120 (by decide) (by decide)

/-- C7: when the worker's write is not visible within the maximum wait, the
loop runs the full `max_wait` ticks and the waiter returns the distinct
"still running" status; the worker is never cancelled and a completion or
error becoming visible after the horizon is discarded — the status is
"still running" for EVERY later outcome `out`. -/
theorem timeout_still_running (maxWait : Nat)
    (fin : Option (Nat × Except String String))
    (h : ∀ k out, fin = some (k, out) → maxWait < k) :
    waitLoop (stateAt fin) maxWait 0 = maxWait ∧
    waitOutcome maxWait (stateAt fin) = WaitStatus.stillRunning := by
  have hinit : ∀ u, u ≤ maxWait → stateAt fin u = initialTask := by
    intro u hu
    cases fin with
    | none => rfl
    | some p =>
        obtain ⟨k, out⟩ := p
        have hk : maxWait < k := h k out rfl
        simp only [stateAt]
        rw [if_neg (by omega)]
  have hstop : ¬((stateAt fin maxWait).completed = false ∧
      (stateAt fin maxWait).error = none ∧ maxWait < maxWait) := by
    simp
  have hrun : ∀ u, u < maxWait → (stateAt fin u).completed = false ∧
      (stateAt fin u).error = none ∧ u < maxWait := by
    intro u hu
    rw [hinit u (by omega)]
    exact ⟨rfl, rfl, hu⟩
  have hl : waitLoop (stateAt fin) maxWait 0 = maxWait :=
    waitLoop_reaches _ maxWait maxWait hstop hrun maxWait 0 (by omega)
  refine ⟨hl, ?_⟩
  simp only [waitOutcome, hl, hinit maxWait le_rfl]
  simp [afterWait, initialTask]

/-- Witness for C7: a worker that would succeed at tick 7 is abandoned by a
5-second wait and its result is discarded. -/
theorem timeout_witness :
    waitLoop (stateAt (some (7, Except.ok "late"))) 5 0 = 5 ∧
    waitOutcome 5 (stateAt (some (7, Except.ok "late"))) =
      WaitStatus.stillRunning :=
  timeout_still_running 5 (some (7, Except.ok "late")) (fun k out h => by
    injection h with h1
    injection h1 with h2 h3
    omega)

/-- C8 counterexample: `AcademicProgressTool._execute` does not recover a
failed JSON parse by treating the raw text as the message body — it returns
an error payload instead (so the universal claim over all data-parsing tools
fails at this tool, e.g. on the non-JSON input "hello"). -/
theorem academic_no_fallback_counterexample :
    academicParse ParseOutcome.failed =
      Except.error ("Invalid student data format",
        "The provided data could not be parsed as JSON") ∧
    academicParse ParseOutcome.failed ≠
      Except.ok [("input", "hello")] := by
  exact ⟨rfl, by simp [academicParse]⟩

/-- C8 amended: on an input string that fails to parse as JSON,
`StudyPatternAnalysisTool` and `ResourceRecommendationTool` recover locally
by treating the raw text as the message body, while `AcademicProgressTool`
and `CareerGuidanceTool` return a structured error payload; in no tool is
the failure re-raised (every parse step is a total function). -/
theorem parse_failure_behavior (raw : String) :
    studyPatternParse ParseOutcome.failed raw = [("input", raw)] ∧
    resourceParse ParseOutcome.failed raw = [("input", raw)] ∧
    academicParse ParseOutcome.failed =
      Except.error ("Invalid student data format",
        "The provided data could not be parsed as JSON") ∧
    careerParse ParseOutcome.failed =
      Except.error ("Invalid student data format",
        "The provided data could not be parsed as JSON") :=
  ⟨rfl, rfl, rfl, rfl⟩

end Aiment
